import Mathlib

/-!
Verification of the test-execution and grading orchestrator of the
MallaReddyUniversity-Exam repository (src/src/ai/flows/execute-code-flow.ts).

The TypeScript source is shallowly embedded: the remote sandbox (Piston HTTP
API) is abstracted as an oracle giving, for each test-case index, the outcome
of the `fetch` call; JavaScript truthiness on optional strings is modelled
explicitly; JavaScript string `trim` is modelled as dropping whitespace from
both ends of the character list; JavaScript number arithmetic in the grading
path is modelled over the exact rationals `Rat`.
-/

set_option autoImplicit false

/-- JavaScript `String.prototype.trim`: the string with whitespace removed
from both ends. -/
def jsTrim (s : String) : String :=
  String.mk (((s.data.dropWhile Char.isWhitespace).reverse.dropWhile Char.isWhitespace).reverse)

/-- JavaScript `s || d` on a `string | undefined` value `s`: the fallback `d`
is taken when `s` is `undefined` or the empty string (both falsy). -/
def jsOrString (s : Option String) (d : String) : String :=
  match s with
  | some v => if v = "" then d else v
  | none => d

/-- JavaScript `s || undefined` on a `string | undefined` value `s`: an empty
string collapses to `undefined`. -/
def jsOrUndefined (s : Option String) : Option String :=
  match s with
  | some v => if v = "" then none else some v
  | none => none

/-- JavaScript truthiness of a `string | undefined` value: truthy iff defined
and non-empty. -/
def jsTruthy (s : Option String) : Bool :=
  match s with
  | some v => !(v == "")
  | none => false

/-- One input/expected-output pair of a question (type `TestCase` of the app). -/
structure TestCase where
  id : String
  input : String
  expectedOutput : String
  deriving Repr, DecidableEq

/-- Outcome of running the source code against one test case
(type `TestResult` of the app).  `error` is `string | undefined` in the
source, embedded as `Option String`. -/
structure TestResult where
  input : String
  expectedOutput : String
  actualOutput : String
  isCorrect : Bool
  error : Option String
  deriving Repr, DecidableEq

/-- The `run` object of a successful Piston response: `output` and `stderr`
fields, each possibly absent. -/
structure RunResult where
  output : Option String
  stderr : Option String
  deriving Repr, DecidableEq

/-- Outcome of the `fetch` call for one test case, as `executeCodeFlow`
distinguishes them: a 2xx response with a parsed body (`ok`), a non-2xx
response whose `statusText` is read (`httpError`), or a thrown failure whose
`message` may be absent (`thrown`). -/
inductive FetchOutcome where
  | ok (run : RunResult)
  | httpError (statusText : String)
  | thrown (message : Option String)
  deriving Repr, DecidableEq

/-- Whether a fetch outcome is one of the two failure modes (non-2xx response
or thrown failure). -/
def FetchOutcome.isFailure : FetchOutcome → Bool
  | FetchOutcome.ok _ => false
  | FetchOutcome.httpError _ => true
  | FetchOutcome.thrown _ => true

/-- Body of the per-test-case loop of `executeCodeFlow`: the `TestResult`
pushed for test case `tc` when the fetch call had outcome `o`.
 - `!response.ok`: actualOutput and error are both the string
   `API Error: ` ++ statusText;
 - success: actualOutput is `(result.run.output || '').trim()`, isCorrect is
   its equality with `testCase.expectedOutput.trim()`, error is
   `result.run.stderr || undefined`;
 - catch: actualOutput is `Execution Failed`, error is
   `error.message || 'An unknown error occurred.'`. -/
def processTestCase (tc : TestCase) (o : FetchOutcome) : TestResult :=
  match o with
  | FetchOutcome.httpError statusText =>
      { input := tc.input
        expectedOutput := tc.expectedOutput
        actualOutput := "API Error: " ++ statusText
        isCorrect := false
        error := some ("API Error: " ++ statusText) }
  | FetchOutcome.ok run =>
      let actualOutput := jsTrim (jsOrString run.output "")
      let isCorrect := actualOutput == jsTrim tc.expectedOutput
      { input := tc.input
        expectedOutput := tc.expectedOutput
        actualOutput := actualOutput
        isCorrect := isCorrect
        error := jsOrUndefined run.stderr }
  | FetchOutcome.thrown message =>
      { input := tc.input
        expectedOutput := tc.expectedOutput
        actualOutput := "Execution Failed"
        isCorrect := false
        error := some (jsOrString message "An unknown error occurred.") }

/-- The `for (const testCase of input.testCases)` loop of `executeCodeFlow`:
accumulates the pushed results and the `totalPassed` counter, which the source
increments only in the success branch when `isCorrect` holds.  The oracle maps
the index of a test case to the outcome of its fetch call. -/
def execLoop (oracle : Nat → FetchOutcome) : List TestCase → Nat → List TestResult × Nat
  | [], _ => ([], 0)
  | tc :: rest, i =>
      let r := processTestCase tc (oracle i)
      let inc : Nat :=
        match oracle i with
        | FetchOutcome.ok _ => if r.isCorrect then 1 else 0
        | _ => 0
      let restOut := execLoop oracle rest (i + 1)
      (r :: restOut.1, inc + restOut.2)

/-- Input of `executeCodeFlow` (`ExecuteCodeInput` of the app). -/
structure ExecuteCodeInput where
  language : String
  sourceCode : String
  testCases : List TestCase
  deriving Repr, DecidableEq

/-- Output of `executeCodeFlow` (`ExecuteCodeOutput` of the app). -/
structure ExecuteCodeOutput where
  results : List TestResult
  totalPassed : Nat
  totalCases : Nat
  deriving Repr, DecidableEq

/-- `executeCodeFlow`: runs every test case through the loop and returns
`{ results, totalPassed, totalCases: input.testCases.length }`. -/
def executeCodeFlow (input : ExecuteCodeInput) (oracle : Nat → FetchOutcome) :
    ExecuteCodeOutput :=
  let out := execLoop oracle input.testCases 0
  { results := out.1
    totalPassed := out.2
    totalCases := input.testCases.length }

/-- A question of an exam: its `testCases` field may be absent
(`question.testCases || []` in the source). -/
structure Question where
  id : String
  text : String
  testCases : Option (List TestCase)
  deriving Repr, DecidableEq

/-- A student's per-question answer record (type `StudentAnswer` of the app);
optional fields are those the source reads or writes conditionally. -/
structure StudentAnswer where
  questionId : String
  questionText : Option String
  status : Option String
  sourceCode : Option String
  actualOutput : Option String
  isCorrect : Option Bool
  testResults : List TestResult
  totalPassed : Option Nat
  totalCases : Option Nat
  marks : Option Rat
  deriving Repr, DecidableEq

/-- Outcome of one `await executeCode(input)` during final submission: either
the promise resolves with an `ExecuteCodeOutput`, or it throws and control
reaches the question-level `catch`. -/
inductive QuestionOutcome where
  | ok (out : ExecuteCodeOutput)
  | threw
  deriving Repr, DecidableEq

/-- The record pushed by `handleSubmitExam` for a question whose answer is
missing or has falsy source code:
`{ questionId, questionText, testResults: [], status: 'not-answered', marks: 0 }`. -/
def unansweredRecord (q : Question) : StudentAnswer :=
  { questionId := q.id
    questionText := some q.text
    status := some "not-answered"
    sourceCode := none
    actualOutput := none
    isCorrect := none
    testResults := []
    totalPassed := none
    totalCases := none
    marks := some 0 }

/-- JavaScript falsiness of the `!answer || !answer.sourceCode` guard of
`handleSubmitExam`. -/
def unattempted (answer : Option StudentAnswer) : Bool :=
  match answer with
  | none => true
  | some a => !(jsTruthy a.sourceCode)

/-- Result of processing one question in `handleSubmitExam`: the record pushed
to `finalAnswers`, the amount added to `totalMarks`, and how many times
`executeCode` was invoked (remote round trips issued for the question). -/
structure PerQuestion where
  record : StudentAnswer
  contribution : Rat
  execCalls : Nat
  deriving Repr, DecidableEq

/-- One iteration of the `for (const question of examData.questions)` loop of
`handleSubmitExam`:
 - missing answer or falsy source code: push the unanswered record, add
   nothing to `totalMarks`, and issue no remote call;
 - `executeCode` resolves: `marksForQuestion` is
   `totalCases > 0 ? (totalPassed / totalCases) * 100 : 0` (JS number
   arithmetic modelled over `Rat`), added to `totalMarks`, and the spread of
   the stored answer is updated with the results, counters and marks;
 - `executeCode` throws: push the stored answer spread with error-filled
   `testResults` over `question.testCases || []`, status `'not-answered'` and
   marks `0`, adding nothing to `totalMarks`. -/
def processQuestion (language : String) (q : Question) (answer : Option StudentAnswer)
    (exec : ExecuteCodeInput → QuestionOutcome) : PerQuestion :=
  match answer with
  | none => { record := unansweredRecord q, contribution := 0, execCalls := 0 }
  | some a =>
      if jsTruthy a.sourceCode then
        let input : ExecuteCodeInput :=
          { language := language
            sourceCode := a.sourceCode.getD ""
            testCases := q.testCases.getD [] }
        match exec input with
        | QuestionOutcome.ok result =>
            let marksForQuestion : Rat :=
              if result.totalCases > 0 then
                ((result.totalPassed : Rat) / (result.totalCases : Rat)) * 100
              else 0
            { record :=
                { a with
                  questionId := q.id
                  questionText := some q.text
                  testResults := result.results
                  totalPassed := some result.totalPassed
                  totalCases := some result.totalCases
                  marks := some marksForQuestion }
              contribution := marksForQuestion
              execCalls := 1 }
        | QuestionOutcome.threw =>
            { record :=
                { a with
                  questionId := q.id
                  questionText := some q.text
                  testResults := (q.testCases.getD []).map (fun tc =>
                    { input := tc.input
                      expectedOutput := tc.expectedOutput
                      actualOutput := "Execution Error on Submit"
                      isCorrect := false
                      error := some "Submission execution failed" })
                  status := some "not-answered"
                  marks := some 0 }
              contribution := 0
              execCalls := 1 }
      else { record := unansweredRecord q, contribution := 0, execCalls := 0 }

/-- Aggregate state of the `handleSubmitExam` loop: the `finalAnswers` list,
the `totalMarks` accumulator and the total number of `executeCode` calls. -/
structure SubmitOutcome where
  finalAnswers : List StudentAnswer
  totalMarks : Rat
  execCalls : Nat
  deriving Repr, DecidableEq

/-- The question loop of `handleSubmitExam`; `exec i` is the behaviour of the
`executeCode` call issued for the question at index `i`. -/
def submitLoop (language : String) (answers : String → Option StudentAnswer)
    (exec : Nat → ExecuteCodeInput → QuestionOutcome) :
    List Question → Nat → SubmitOutcome
  | [], _ => { finalAnswers := [], totalMarks := 0, execCalls := 0 }
  | q :: rest, i =>
      let pq := processQuestion language q (answers q.id) (exec i)
      let restOut := submitLoop language answers exec rest (i + 1)
      { finalAnswers := pq.record :: restOut.finalAnswers
        totalMarks := pq.contribution + restOut.totalMarks
        execCalls := pq.execCalls + restOut.execCalls }

/-- `handleSubmitExam`, restricted to its grading core: runs the question loop
and computes `overallScore = questions.length > 0 ? totalMarks / questions.length : 0`.
Returns the final answers list and the overall score. -/
def handleSubmitExam (language : String) (questions : List Question)
    (answers : String → Option StudentAnswer)
    (exec : Nat → ExecuteCodeInput → QuestionOutcome) :
    List StudentAnswer × Rat :=
  let s := submitLoop language answers exec questions 0
  (s.finalAnswers,
   if questions.length > 0 then s.totalMarks / (questions.length : Rat) else 0)

/-- The test-case list built by `handleRunCode`:
`currentQuestion.testCases?.slice(0, 1) || [.. one fresh empty test case ..]`
(the fallback fires only when the field is absent; an empty array is truthy
in JavaScript and is kept as is). -/
def runTestCases (testCases : Option (List TestCase)) : List TestCase :=
  match testCases with
  | some l => l.take 1
  | none => [{ id := "fresh-uuid", input := "", expectedOutput := "" }]

/-- The dispatch decision of `handleRunCode` on the first returned result:
when `singleResult.error` is truthy the dispatched `SET_RUN_RESULT` payload
carries the error text as `actualOutput` and `isCorrect: false`; otherwise it
carries the result's own `actualOutput` and `isCorrect`. -/
def runDispatchPayload (singleResult : TestResult) : String × Bool :=
  if jsTruthy singleResult.error then
    (singleResult.error.getD "", false)
  else
    (singleResult.actualOutput, singleResult.isCorrect)

/-- `handleRunCode`, restricted to its execution core: builds the input with
the first test case, runs `executeCode`, and reads `result.results[0]`.
Returns the dispatched payload, or `none` when the result list is empty
(where the source would fault reading `.error` of `undefined`). -/
def handleRunCode (language sourceCode : String) (testCases : Option (List TestCase))
    (oracle : Nat → FetchOutcome) : Option (String × Bool) :=
  match (executeCodeFlow
      { language := language, sourceCode := sourceCode,
        testCases := runTestCases testCases } oracle).results with
  | [] => none
  | r :: _ => some (runDispatchPayload r)

/-- The component's exam state (type `State` of the app): `answers` is a
JavaScript `Map<string, StudentAnswer>` modelled as an insertion-ordered
association list. -/
structure ExamState where
  timeLeft : Nat
  examStarted : Bool
  examFinished : Bool
  answers : List (String × StudentAnswer)
  language : String
  deriving Repr, DecidableEq

/-- `Map.get`: first entry with the key, if any. -/
def mapGet (m : List (String × StudentAnswer)) (k : String) : Option StudentAnswer :=
  (m.find? (fun p => p.1 == k)).map Prod.snd

/-- `Map.set`: replaces the value at an existing key in place, otherwise
appends the entry (JavaScript Map insertion-order semantics). -/
def mapSet : List (String × StudentAnswer) → String → StudentAnswer → List (String × StudentAnswer)
  | [], k, v => [(k, v)]
  | (k', v') :: rest, k, v =>
      if k' == k then (k, v) :: rest else (k', v') :: mapSet rest k v

/-- The answer record `{ questionId: qid }` created when a question has no
entry in the answers map yet. -/
def emptyAnswer (qid : String) : StudentAnswer :=
  { questionId := qid
    questionText := none
    status := none
    sourceCode := none
    actualOutput := none
    isCorrect := none
    testResults := []
    totalPassed := none
    totalCases := none
    marks := none }

/-- The reducer's action type (type `Action` of the app). -/
inductive ExamAction where
  | initState (payload : ExamState)
  | startExam
  | updateCode (questionId sourceCode : String)
  | updateLanguage (language : String)
  | setRunResult (questionId actualOutput : String) (isCorrect : Bool)
  | tickTimer
  | finishExam
  deriving Repr, DecidableEq

/-- `examReducer`, case for case from the source's `switch (action.type)`.
In `SET_RUN_RESULT`, the stored (or fresh) answer is spread with the payload's
`actualOutput` and `isCorrect`, and `status` is set to `'answered'` only when
the payload's `isCorrect` is true. -/
def examReducer (state : ExamState) (action : ExamAction) : ExamState :=
  match action with
  | ExamAction.initState payload => payload
  | ExamAction.startExam => { state with examStarted := true }
  | ExamAction.updateCode qid src =>
      let answer := (mapGet state.answers qid).getD (emptyAnswer qid)
      { state with answers := mapSet state.answers qid { answer with sourceCode := some src } }
  | ExamAction.updateLanguage l => { state with language := l }
  | ExamAction.setRunResult qid out correct =>
      let answer := (mapGet state.answers qid).getD (emptyAnswer qid)
      let updatedAnswer : StudentAnswer :=
        { answer with actualOutput := some out, isCorrect := some correct }
      let updatedAnswer :=
        if correct then { updatedAnswer with status := some "answered" } else updatedAnswer
      { state with answers := mapSet state.answers qid updatedAnswer }
  | ExamAction.tickTimer =>
      if state.timeLeft ≤ 1 then { state with timeLeft := 0, examFinished := true }
      else { state with timeLeft := state.timeLeft - 1 }
  | ExamAction.finishExam => { state with examFinished := true, timeLeft := 0 }

/-- Example test case: add 1 and 2. -/
def egTestCase1 : TestCase := { id := "t1", input := "1 2", expectedOutput := "3" }

/-- Example test case: add 2 and 3. -/
def egTestCase2 : TestCase := { id := "t2", input := "2 3", expectedOutput := "5" }

/-- Example input: one submission with two test cases. -/
def egInput : ExecuteCodeInput :=
  { language := "python"
    sourceCode := "print(sum(map(int, input().split())))"
    testCases := [egTestCase1, egTestCase2] }

/-- Example oracle: the first fetch gets a non-2xx response, the second
succeeds with the right answer. -/
def egFailOracle : Nat → FetchOutcome := fun i =>
  if i = 0 then FetchOutcome.httpError "Service Unavailable"
  else FetchOutcome.ok { output := some "5\n", stderr := none }

/-- Example question holding the two example test cases. -/
def egQuestion : Question :=
  { id := "q1", text := "Add two numbers", testCases := some [egTestCase1, egTestCase2] }

/-- Example attempted answer: non-empty source code. -/
def egAttempt : StudentAnswer := { emptyAnswer "q1" with sourceCode := some "print(1)" }

/-- Example answer whose source code is the empty string (falsy in JS). -/
def egEmptySource : StudentAnswer := { emptyAnswer "q1" with sourceCode := some "" }

/-- Example execution summary: 3 of 4 test cases passed. -/
def egSummary : ExecuteCodeOutput := { results := [], totalPassed := 3, totalCases := 4 }

/-- Example `executeCode` behaviour that resolves with `egSummary`. -/
def egOkExec : ExecuteCodeInput → QuestionOutcome := fun _ => QuestionOutcome.ok egSummary

/-- Example test case expecting `42`. -/
def egWarnTestCase : TestCase := { id := "t3", input := "", expectedOutput := "42" }

/-- Example oracle: the sandbox answers `42` with a warning on stderr. -/
def egWarnOracle : Nat → FetchOutcome := fun _ =>
  FetchOutcome.ok { output := some "42\n", stderr := some "warning" }

/-- The result `executeCodeFlow` produces for `egWarnTestCase` under
`egWarnOracle`: correct output, but a warning in `error`. -/
def egWarnResult : TestResult :=
  { input := ""
    expectedOutput := "42"
    actualOutput := "42"
    isCorrect := true
    error := some "warning" }

theorem jsOrString_empty_fallback (o : Option String) : jsOrString o "" = o.getD "" := by
  cases o with
  | none => rfl
  | some v =>
      simp only [jsOrString, Option.getD]
      split <;> simp_all

theorem jsOrString_ne_empty (m : Option String) (d : String) (hd : d ≠ "") :
    jsOrString m d ≠ "" := by
  cases m with
  | none => exact hd
  | some v =>
      simp only [jsOrString]
      split
      · exact hd
      · assumption

theorem apiErrorString_ne_empty (st : String) : "API Error: " ++ st ≠ "" := by
  intro h
  have hd := congrArg String.data h
  rw [String.data_append] at hd
  have h1 := (List.append_eq_nil.mp hd).1
  simp at h1

theorem execLoop_length (oracle : Nat → FetchOutcome) :
    ∀ (tcs : List TestCase) (i : Nat), (execLoop oracle tcs i).1.length = tcs.length := by
  intro tcs
  induction tcs with
  | nil => intro i; rfl
  | cons tc rest ih =>
      intro i
      simp [execLoop, ih (i + 1)]

theorem execLoop_get (oracle : Nat → FetchOutcome) :
    ∀ (tcs : List TestCase) (i j : Nat) (h : j < tcs.length),
      (execLoop oracle tcs i).1.get? j =
        some (processTestCase (tcs.get ⟨j, h⟩) (oracle (i + j))) := by
  intro tcs
  induction tcs with
  | nil => intro i j h; exact absurd h (Nat.not_lt_zero j)
  | cons tc rest ih =>
      intro i j h
      cases j with
      | zero => simp [execLoop]
      | succ j =>
          have hj : j < rest.length := Nat.lt_of_succ_lt_succ h
          have harith : i + 1 + j = i + (j + 1) := by omega
          simp only [execLoop, List.get?_cons_succ, List.get]
          rw [ih (i + 1) j hj, harith]

theorem processTestCase_isCorrect_false (tc : TestCase) (o : FetchOutcome)
    (h : o.isFailure = true) :
    (processTestCase tc o).isCorrect = false := by
  cases o with
  | ok run => simp [FetchOutcome.isFailure] at h
  | httpError st => rfl
  | thrown m => rfl

theorem execLoop_passed (oracle : Nat → FetchOutcome) :
    ∀ (tcs : List TestCase) (i : Nat),
      (execLoop oracle tcs i).2 = (execLoop oracle tcs i).1.countP (fun r => r.isCorrect) := by
  intro tcs
  induction tcs with
  | nil => intro i; rfl
  | cons tc rest ih =>
      intro i
      simp only [execLoop, List.countP_cons]
      rw [ih (i + 1)]
      cases ho : oracle i with
      | ok run =>
          by_cases hc : (processTestCase tc (FetchOutcome.ok run)).isCorrect = true <;>
            simp [ho, hc, Nat.add_comm]
      | httpError st =>
          simp [ho, processTestCase]
      | thrown m =>
          simp [ho, processTestCase]

theorem processTestCase_input (tc : TestCase) (o : FetchOutcome) :
    (processTestCase tc o).input = tc.input := by
  cases o <;> rfl

theorem processTestCase_expectedOutput (tc : TestCase) (o : FetchOutcome) :
    (processTestCase tc o).expectedOutput = tc.expectedOutput := by
  cases o <;> rfl

theorem mapGet_mapSet_self (m : List (String × StudentAnswer)) (k : String) (v : StudentAnswer) :
    mapGet (mapSet m k v) k = some v := by
  induction m with
  | nil => simp [mapGet, mapSet, List.find?]
  | cons p rest ih =>
      obtain ⟨k', v'⟩ := p
      by_cases h : k' = k
      · simp [mapGet, mapSet, h, List.find?]
      · have hb : (k' == k) = false := beq_false_of_ne h
        simp only [mapSet, hb, Bool.false_eq_true, if_false]
        simpa [mapGet, List.find?, hb] using ih

theorem processQuestion_record_marks (language : String) (q : Question)
    (answer : Option StudentAnswer) (exec : ExecuteCodeInput → QuestionOutcome) :
    (processQuestion language q answer exec).record.marks =
      some (processQuestion language q answer exec).contribution := by
  cases answer with
  | none => rfl
  | some a =>
      by_cases hf : jsTruthy a.sourceCode
      · simp only [processQuestion, hf, if_true]
        cases exec { language := language, sourceCode := a.sourceCode.getD "", testCases := q.testCases.getD [] } <;> rfl
      · simp [processQuestion, hf, unansweredRecord]

theorem submitLoop_length (language : String) (answers : String → Option StudentAnswer)
    (exec : Nat → ExecuteCodeInput → QuestionOutcome) :
    ∀ (qs : List Question) (i : Nat),
      (submitLoop language answers exec qs i).finalAnswers.length = qs.length := by
  intro qs
  induction qs with
  | nil => intro i; rfl
  | cons q rest ih =>
      intro i
      simp [submitLoop, ih (i + 1)]

theorem submitLoop_totalMarks (language : String) (answers : String → Option StudentAnswer)
    (exec : Nat → ExecuteCodeInput → QuestionOutcome) :
    ∀ (qs : List Question) (i : Nat),
      (submitLoop language answers exec qs i).totalMarks =
        ((submitLoop language answers exec qs i).finalAnswers.map
          (fun a => a.marks.getD 0)).sum := by
  intro qs
  induction qs with
  | nil => intro i; simp [submitLoop]
  | cons q rest ih =>
      intro i
      simp only [submitLoop, List.map_cons, List.sum_cons]
      rw [ih (i + 1), processQuestion_record_marks language q (answers q.id) (exec i)]
      rfl

/-- Claim C1: for a test case whose remote call succeeds, the produced
result's `isCorrect` is true iff the sandbox's output, trimmed of leading and
trailing whitespace, equals the test case's `expectedOutput` trimmed the same
way — case-sensitively and with no internal normalization.  In particular a
trailing newline still matches, and a case difference does not. -/
theorem C1_isCorrect_iff_trimmed_eq :
    (∀ (tc : TestCase) (run : RunResult),
        ((processTestCase tc (FetchOutcome.ok run)).isCorrect = true ↔
          jsTrim (run.output.getD "") = jsTrim tc.expectedOutput)) ∧
    ((processTestCase { id := "t1", input := "", expectedOutput := "42" }
        (FetchOutcome.ok { output := some "42\n", stderr := none })).isCorrect = true) ∧
    ((processTestCase { id := "t2", input := "", expectedOutput := "hello" }
        (FetchOutcome.ok { output := some "Hello", stderr := none })).isCorrect = false) := by
  refine ⟨?_, by decide, by decide⟩
  intro tc run
  simp [processTestCase, jsOrString_empty_fallback]

/-- Claim C2: when the remote call for a test case fails (non-2xx response or
thrown failure), the result at that index has `isCorrect = false`, a non-empty
`error`, a non-empty human-readable `actualOutput`, and the batch is not
aborted: the result list still covers every test case. -/
theorem C2_transport_failure_isolated (input : ExecuteCodeInput)
    (oracle : Nat → FetchOutcome) (i : Nat)
    (hi : i < input.testCases.length)
    (hfail : (oracle i).isFailure = true) :
    ∃ r, (executeCodeFlow input oracle).results.get? i = some r ∧
      r.isCorrect = false ∧
      (∃ e, r.error = some e ∧ e ≠ "") ∧
      r.actualOutput ≠ "" ∧
      (executeCodeFlow input oracle).results.length = input.testCases.length := by
  refine ⟨processTestCase (input.testCases.get ⟨i, hi⟩) (oracle i), ?_, ?_, ?_, ?_, ?_⟩
  · have hg := execLoop_get oracle input.testCases 0 i hi
    simpa [executeCodeFlow] using hg
  · exact processTestCase_isCorrect_false _ _ hfail
  · cases ho : oracle i with
    | ok run => rw [ho] at hfail; simp [FetchOutcome.isFailure] at hfail
    | httpError st =>
        exact ⟨"API Error: " ++ st, rfl, apiErrorString_ne_empty st⟩
    | thrown m =>
        exact ⟨jsOrString m "An unknown error occurred.", rfl,
          jsOrString_ne_empty m _ (by decide)⟩
  · cases ho : oracle i with
    | ok run => rw [ho] at hfail; simp [FetchOutcome.isFailure] at hfail
    | httpError st => exact apiErrorString_ne_empty st
    | thrown m =>
        change ("Execution Failed" : String) ≠ ""
        decide
  · simpa [executeCodeFlow] using execLoop_length oracle input.testCases 0

/-- Witness for C2 at a concrete input: two test cases, the first fetch gets
a non-2xx response; the failed case is isolated and the second case is still
in the results. -/
theorem C2_transport_failure_isolated_witness :
    (0 < egInput.testCases.length ∧ (egFailOracle 0).isFailure = true) ∧
    (∃ r, (executeCodeFlow egInput egFailOracle).results.get? 0 = some r ∧
      r.isCorrect = false ∧
      (∃ e, r.error = some e ∧ e ≠ "") ∧
      r.actualOutput ≠ "" ∧
      (executeCodeFlow egInput egFailOracle).results.length = egInput.testCases.length) :=
  ⟨⟨by decide, by decide⟩,
   C2_transport_failure_isolated egInput egFailOracle 0 (by decide) (by decide)⟩

/-- Claim C3: for every input (empty test-case lists included) the summary's
results have the same length and order as the input test cases, `totalCases`
equals that length, and the result at each index copies `input` and
`expectedOutput` verbatim from the test case at the same index. -/
theorem C3_results_aligned (input : ExecuteCodeInput) (oracle : Nat → FetchOutcome) :
    (executeCodeFlow input oracle).results.length = input.testCases.length ∧
    (executeCodeFlow input oracle).totalCases = input.testCases.length ∧
    (∀ (i : Nat) (h : i < input.testCases.length),
      ∃ r, (executeCodeFlow input oracle).results.get? i = some r ∧
        r.input = (input.testCases.get ⟨i, h⟩).input ∧
        r.expectedOutput = (input.testCases.get ⟨i, h⟩).expectedOutput) := by
  refine ⟨?_, rfl, ?_⟩
  · simpa [executeCodeFlow] using execLoop_length oracle input.testCases 0
  · intro i h
    refine ⟨processTestCase (input.testCases.get ⟨i, h⟩) (oracle i), ?_, ?_, ?_⟩
    · simpa [executeCodeFlow] using execLoop_get oracle input.testCases 0 i h
    · exact processTestCase_input _ _
    · exact processTestCase_expectedOutput _ _

/-- Witness for C3 at a concrete input: index 0 of the two-case example. -/
theorem C3_results_aligned_witness :
    0 < egInput.testCases.length ∧
    (∃ r, (executeCodeFlow egInput egFailOracle).results.get? 0 = some r ∧
      r.input = (egInput.testCases.get ⟨0, by decide⟩).input ∧
      r.expectedOutput = (egInput.testCases.get ⟨0, by decide⟩).expectedOutput) :=
  ⟨by decide, (C3_results_aligned egInput egFailOracle).2.2 0 (by decide)⟩

/-- Claim C4: the summary's `totalPassed` equals the number of results whose
`isCorrect` field is true. -/
theorem C4_totalPassed_counts (input : ExecuteCodeInput) (oracle : Nat → FetchOutcome) :
    (executeCodeFlow input oracle).totalPassed =
      (executeCodeFlow input oracle).results.countP (fun r => r.isCorrect) := by
  simpa [executeCodeFlow] using execLoop_passed oracle input.testCases 0

/-- Counterexample to Claim C5 as stated: at a concrete attempted question
whose `executeCode` call throws, the question's status is `'not-answered'` —
exactly the status given to an unattempted question — so the execution
failure is NOT flagged with a distinct status. -/
theorem C5_claim_counterexample :
    (processQuestion "python" egQuestion (some egAttempt)
        (fun _ => QuestionOutcome.threw)).record.status =
      (processQuestion "python" egQuestion none
        (fun _ => QuestionOutcome.threw)).record.status ∧
    (processQuestion "python" egQuestion (some egAttempt)
        (fun _ => QuestionOutcome.threw)).record.status = some "not-answered" := by
  exact ⟨rfl, rfl⟩

/-- Claim C5, amended: when the execution client throws for an entire
attempted question during final submission, the question is scored 0 and its
status is set to `'not-answered'` — the same status as an unattempted
question, not a distinct one; what distinguishes the execution failure is its
`testResults` list, filled with one error entry per test case
(`actualOutput = 'Execution Error on Submit'`,
`error = 'Submission execution failed'`), where an unattempted question's
`testResults` is empty. -/
theorem C5_amended_execution_failure (language : String) (q : Question)
    (a : StudentAnswer) (exec : ExecuteCodeInput → QuestionOutcome)
    (hsrc : jsTruthy a.sourceCode = true)
    (hthrew : exec { language := language, sourceCode := a.sourceCode.getD "", testCases := q.testCases.getD [] } = QuestionOutcome.threw) :
    (processQuestion language q (some a) exec).contribution = 0 ∧
    (processQuestion language q (some a) exec).record.marks = some 0 ∧
    (processQuestion language q (some a) exec).record.status = some "not-answered" ∧
    (processQuestion language q none exec).record.status = some "not-answered" ∧
    (processQuestion language q (some a) exec).record.testResults =
      (q.testCases.getD []).map (fun tc =>
        { input := tc.input
          expectedOutput := tc.expectedOutput
          actualOutput := "Execution Error on Submit"
          isCorrect := false
          error := some "Submission execution failed" }) ∧
    (processQuestion language q none exec).record.testResults = [] := by
  simp [processQuestion, hsrc, hthrew, unansweredRecord]

/-- Witness for the amended C5 at a concrete input. -/
theorem C5_amended_execution_failure_witness :
    (jsTruthy egAttempt.sourceCode = true ∧
      (fun _ => QuestionOutcome.threw : ExecuteCodeInput → QuestionOutcome)
          { language := "python", sourceCode := egAttempt.sourceCode.getD "", testCases := egQuestion.testCases.getD [] } = QuestionOutcome.threw) ∧
    ((processQuestion "python" egQuestion (some egAttempt)
        (fun _ => QuestionOutcome.threw)).contribution = 0 ∧
      (processQuestion "python" egQuestion (some egAttempt)
        (fun _ => QuestionOutcome.threw)).record.marks = some 0 ∧
      (processQuestion "python" egQuestion (some egAttempt)
        (fun _ => QuestionOutcome.threw)).record.status = some "not-answered" ∧
      (processQuestion "python" egQuestion none
        (fun _ => QuestionOutcome.threw)).record.status = some "not-answered" ∧
      (processQuestion "python" egQuestion (some egAttempt)
        (fun _ => QuestionOutcome.threw)).record.testResults =
        (egQuestion.testCases.getD []).map (fun tc =>
          { input := tc.input
            expectedOutput := tc.expectedOutput
            actualOutput := "Execution Error on Submit"
            isCorrect := false
            error := some "Submission execution failed" }) ∧
      (processQuestion "python" egQuestion none
        (fun _ => QuestionOutcome.threw)).record.testResults = []) :=
  ⟨⟨by decide, rfl⟩,
   C5_amended_execution_failure "python" egQuestion egAttempt
     (fun _ => QuestionOutcome.threw) (by decide) rfl⟩

/-- Claim C6: a question whose answer is missing or whose source code is
empty is scored 0 and marked `'not-answered'`, and the execution client is
never invoked for it — zero remote calls, and the outcome does not depend on
the execution client's behaviour at all. -/
theorem C6_empty_source_short_circuit (language : String) (q : Question)
    (answer : Option StudentAnswer) (exec : ExecuteCodeInput → QuestionOutcome)
    (h : unattempted answer = true) :
    processQuestion language q answer exec =
      { record := unansweredRecord q, contribution := 0, execCalls := 0 } ∧
    (∀ exec2 : ExecuteCodeInput → QuestionOutcome,
      processQuestion language q answer exec2 = processQuestion language q answer exec) := by
  cases answer with
  | none => exact ⟨rfl, fun _ => rfl⟩
  | some a =>
      have hf : jsTruthy a.sourceCode = false := by
        simpa [unattempted] using h
      constructor
      · simp [processQuestion, hf]
      · intro exec2
        simp [processQuestion, hf]

/-- Witness for C6 at a concrete input: an answer whose source code is the
empty string. -/
theorem C6_empty_source_short_circuit_witness :
    unattempted (some egEmptySource) = true ∧
    (processQuestion "python" egQuestion (some egEmptySource) egOkExec =
        { record := unansweredRecord egQuestion, contribution := 0, execCalls := 0 } ∧
      (∀ exec2 : ExecuteCodeInput → QuestionOutcome,
        processQuestion "python" egQuestion (some egEmptySource) exec2 =
          processQuestion "python" egQuestion (some egEmptySource) egOkExec)) :=
  ⟨by decide,
   C6_empty_source_short_circuit "python" egQuestion (some egEmptySource) egOkExec (by decide)⟩

/-- Claim C7: the per-question score is `0` when `totalCases = 0` and
`100 * totalPassed / totalCases` otherwise, and the overall exam score is the
arithmetic mean of the per-question scores over all questions (`0` when there
are no questions). -/
theorem C7_scoring_contract (language : String) (questions : List Question)
    (answers : String → Option StudentAnswer)
    (exec : Nat → ExecuteCodeInput → QuestionOutcome) :
    (handleSubmitExam language questions answers exec).1.length = questions.length ∧
    (handleSubmitExam language questions answers exec).2 =
      (if questions.length = 0 then 0
       else (((handleSubmitExam language questions answers exec).1.map
                (fun a => a.marks.getD 0)).sum) / (questions.length : Rat)) ∧
    (∀ (q : Question) (a : StudentAnswer) (out : ExecuteCodeOutput)
        (e : ExecuteCodeInput → QuestionOutcome),
      jsTruthy a.sourceCode = true →
      e { language := language, sourceCode := a.sourceCode.getD "", testCases := q.testCases.getD [] } = QuestionOutcome.ok out →
      (processQuestion language q (some a) e).contribution =
        (if out.totalCases = 0 then 0
         else 100 * (out.totalPassed : Rat) / (out.totalCases : Rat))) := by
  refine ⟨?_, ?_, ?_⟩
  · simpa [handleSubmitExam] using submitLoop_length language answers exec questions 0
  · simp only [handleSubmitExam]
    rw [submitLoop_totalMarks language answers exec questions 0]
    rcases Nat.eq_zero_or_pos questions.length with hq | hq
    · simp [hq]
    · have h1 : questions.length > 0 := hq
      have h2 : questions.length ≠ 0 := Nat.pos_iff_ne_zero.mp hq
      simp [h1, h2]
  · intro q a out e hsrc hok
    simp only [processQuestion, hsrc, if_true, hok]
    rcases Nat.eq_zero_or_pos out.totalCases with hc | hc
    · simp [hc]
    · have h1 : out.totalCases > 0 := hc
      have h2 : out.totalCases ≠ 0 := Nat.pos_iff_ne_zero.mp hc
      have h3 : ((out.totalCases : Rat)) ≠ 0 := by
        exact_mod_cast h2
      simp only [h1, if_true, h2, if_false]
      field_simp
      ring

/-- Witness for C7 at a concrete input: a summary with 3 of 4 cases passed
scores 75. -/
theorem C7_scoring_contract_witness :
    (jsTruthy egAttempt.sourceCode = true ∧
      egOkExec { language := "python", sourceCode := egAttempt.sourceCode.getD "", testCases := egQuestion.testCases.getD [] } = QuestionOutcome.ok egSummary) ∧
    (processQuestion "python" egQuestion (some egAttempt) egOkExec).contribution =
      (if egSummary.totalCases = 0 then 0
       else 100 * (egSummary.totalPassed : Rat) / (egSummary.totalCases : Rat)) :=
  ⟨⟨by decide, rfl⟩,
   (C7_scoring_contract "python" [] (fun _ => none)
      (fun _ _ => QuestionOutcome.threw)).2.2 egQuestion egAttempt egSummary egOkExec
     (by decide) rfl⟩

/-- Claim C8: when the remote call succeeds and the sandbox reports a
non-empty stderr, the result's `error` carries it — and `isCorrect` is
unaffected by stderr (error presence does not by itself fail the case). -/
theorem C8_stderr_surfaced (tc : TestCase) (run : RunResult) (s : String)
    (hs : run.stderr = some s) (hne : s ≠ "") :
    (processTestCase tc (FetchOutcome.ok run)).error = some s ∧
    (processTestCase tc (FetchOutcome.ok run)).isCorrect =
      (processTestCase tc (FetchOutcome.ok { run with stderr := none })).isCorrect := by
  constructor
  · simp [processTestCase, jsOrUndefined, hs, hne]
  · rfl

/-- Witness for C8 at a concrete input: correct output with a warning on
stderr, so `error` is populated while `isCorrect` is true. -/
theorem C8_stderr_surfaced_witness :
    (({ output := some "42", stderr := some "warning" } : RunResult).stderr =
        some "warning" ∧ "warning" ≠ "") ∧
    ((processTestCase { id := "t", input := "", expectedOutput := "42" }
        (FetchOutcome.ok { output := some "42", stderr := some "warning" })).error =
      some "warning" ∧
     (processTestCase { id := "t", input := "", expectedOutput := "42" }
        (FetchOutcome.ok { output := some "42", stderr := some "warning" })).isCorrect =
      (processTestCase { id := "t", input := "", expectedOutput := "42" }
        (FetchOutcome.ok { output := some "42", stderr := none })).isCorrect) ∧
    (processTestCase { id := "t", input := "", expectedOutput := "42" }
        (FetchOutcome.ok { output := some "42", stderr := some "warning" })).isCorrect = true :=
  ⟨⟨rfl, by decide⟩,
   C8_stderr_surfaced { id := "t", input := "", expectedOutput := "42" }
     { output := some "42", stderr := some "warning" } "warning" rfl (by decide),
   by decide⟩

/-- Claim C9: in the interactive run path, whenever the first returned result
carries a non-empty error string, the dispatched run outcome is failed: the
payload carries the error text as `actualOutput` and `isCorrect = false`,
regardless of the result's own `isCorrect` flag. -/
theorem C9_error_overrides_run (language sourceCode : String)
    (testCases : Option (List TestCase)) (oracle : Nat → FetchOutcome)
    (r : TestResult) (s : String)
    (hr : (executeCodeFlow { language := language, sourceCode := sourceCode, testCases := runTestCases testCases } oracle).results.head? = some r)
    (he : r.error = some s) (hne : s ≠ "") :
    handleRunCode language sourceCode testCases oracle = some (s, false) := by
  unfold handleRunCode
  cases hres : (executeCodeFlow { language := language, sourceCode := sourceCode, testCases := runTestCases testCases } oracle).results with
  | nil => rw [hres] at hr; simp at hr
  | cons r0 rest =>
      rw [hres] at hr
      simp only [List.head?] at hr
      cases hr
      simp [runDispatchPayload, jsTruthy, he, hne]

/-- Witness for C9 at a concrete input: the sandbox answers correctly but
emits a warning, so the single result has `isCorrect = true` and a non-empty
`error`; the interactive path still records the run as failed with the error
text as output. -/
theorem C9_error_overrides_run_witness :
    ((executeCodeFlow { language := "python", sourceCode := "print(42)", testCases := runTestCases (some [egWarnTestCase]) } egWarnOracle).results.head? =
        some egWarnResult ∧
      egWarnResult.error = some "warning" ∧ "warning" ≠ "" ∧
      egWarnResult.isCorrect = true) ∧
    handleRunCode "python" "print(42)" (some [egWarnTestCase]) egWarnOracle =
      some ("warning", false) :=
  ⟨⟨by decide, rfl, by decide, rfl⟩,
   C9_error_overrides_run "python" "print(42)" (some [egWarnTestCase]) egWarnOracle
     egWarnResult "warning" (by decide) rfl (by decide)⟩

/-- Claim C10: on a `SET_RUN_RESULT` action the reducer stores the payload's
`actualOutput` and `isCorrect` in the question's answer, and sets the status
to `'answered'` exactly when the payload's `isCorrect` is true — on a failing
run the previous status field is left unchanged, so a question once marked
`'answered'` is never downgraded by a later failing run. -/
theorem C10_setRunResult_status (state : ExamState) (qid out : String) (correct : Bool) :
    mapGet (examReducer state (ExamAction.setRunResult qid out correct)).answers qid =
      some { (mapGet state.answers qid).getD (emptyAnswer qid) with
             actualOutput := some out
             isCorrect := some correct
             status := if correct then some "answered"
                       else ((mapGet state.answers qid).getD (emptyAnswer qid)).status } := by
  cases correct <;> simp [examReducer, mapGet_mapSet_self]
